import Mathlib

/-!
Shallow embedding of the GObject wrapper bridge: the lifecycle-counter
report, the toggle-notification dispatch, wrapper-pair teardown, wrapper
lookup and creation, the reflection-driven member resolver, and the
instance-level property/field/signal accessors. Each definition is a
direct translation of the corresponding C++ function; external
collaborators (value marshaling, the JS engine allocator, the
introspection database, vfunc address resolution) appear as explicit
parameters recording the answers they give the bridge.
-/

/-! ## Lifecycle counters and gjs_memory_report -/

/-- Values of the global lifecycle counters: one field per category
defined with GJS_DEFINE_COUNTER, plus the separate `everything` counter
which is incremented and decremented alongside every category. -/
structure GjsMemCounters where
  everything : Int
  boxed_instance : Int
  boxed_prototype : Int
  closure : Int
  function : Int
  fundamental_instance : Int
  fundamental_prototype : Int
  gerror_instance : Int
  gerror_prototype : Int
  importer : Int
  interface : Int
  module : Int
  ns : Int
  object_instance : Int
  object_prototype : Int
  param : Int
  repo : Int
  union_instance : Int
  union_prototype : Int

/-- The static `counters[]` array: every category counter in declaration
order; `everything` is deliberately not an element. -/
def counters (c : GjsMemCounters) : List Int :=
  [c.boxed_instance, c.boxed_prototype, c.closure, c.function,
   c.fundamental_instance, c.fundamental_prototype, c.gerror_instance,
   c.gerror_prototype, c.importer, c.interface, c.module, c.ns,
   c.object_instance, c.object_prototype, c.param, c.repo,
   c.union_instance, c.union_prototype]

/-- Observable outcome of `gjs_memory_report`: whether the
"Object counts don't add up!" warning was logged, whether the nonzero
category listing was produced, and whether the process was terminated
by `g_error`. -/
structure ReportResult where
  warned_mismatch : Bool
  logged_categories : Bool
  died : Bool
deriving DecidableEq

/-- `gjs_memory_report`: sums the category counters into
`total_objects`, logs a (non-fatal) warning when the sum disagrees with
the `everything` counter, and when any objects are still alive logs the
per-category counts and, if `die_if_leaks` was requested, terminates the
process. -/
def gjs_memory_report (c : GjsMemCounters) (die_if_leaks : Bool) : ReportResult :=
  let total_objects := (counters c).foldl (· + ·) 0
  let warned := total_objects != c.everything
  if c.everything > 0 then
    { warned_mismatch := warned, logged_categories := true, died := die_if_leaks }
  else
    { warned_mismatch := warned, logged_categories := false, died := false }

/-! ## Toggle notification dispatch -/

/-- Direction of a toggle transition: UP is native refcount 1 to 2 (the
wrapper must be rooted), DOWN is 2 to 1 (the wrapper must be unrooted). -/
inductive Direction where
  | up
  | down
deriving DecidableEq

/-- What `wrapped_gobj_toggle_notify` does with one incoming
notification. `fatalDoubleQueue` stands for the `g_error` calls that
abort the process. -/
inductive ToggleAction where
  | ignored
  | fatalDoubleQueue
  | appliedInline (d : Direction)
  | enqueued (d : Direction)
deriving DecidableEq

/-- `wrapped_gobj_toggle_notify`, as a function of the observations the
C++ code makes: whether the context is in `destroying()` mode, whether
we are on the owner (main) thread, GObject's `is_last_ref` flag (true
means the 2 to 1 transition, i.e. DOWN), and the pair returned by
`ToggleQueue::is_queued(gobj)` (down queued first, then up queued). -/
def wrapped_gobj_toggle_notify (destroying is_main_thread is_last_ref
    toggle_down_queued toggle_up_queued : Bool) : ToggleAction :=
  if destroying then .ignored
  else if is_last_ref then
    if is_main_thread then
      if toggle_up_queued || toggle_down_queued then .fatalDoubleQueue
      else .appliedInline .down
    else .enqueued .down
  else
    if is_main_thread && !toggle_down_queued then
      if toggle_up_queued then .fatalDoubleQueue
      else .appliedInline .up
    else .enqueued .up

/-! ## Wrapper-pair teardown -/

/-- The ObjectInstance fields involved in teardown. `m_ptr` is the
native object pointer (`none` once released); `gobj_ref_count` is the
native reference count the finalizer reads from that object. -/
structure ObjectInstanceS where
  m_ptr : Option Nat
  gobj_ref_count : Int
  m_wrapper : Option Nat
  m_wrapper_finalized : Bool
  m_gobj_disposed : Bool
  m_uses_toggle_ref : Bool
  m_closures : List Nat
  wrapper_rooted : Bool
  qdata_set : Bool
  linked : Bool
deriving DecidableEq

/-- Externally visible effects accumulated during a teardown run:
weak-notify removals, toggle-reference removals, plain unrefs, closures
invalidated (in order), and whether a `g_error` terminated the
process. -/
structure TeardownEffects where
  weak_unrefs : Nat
  toggle_unrefs : Nat
  plain_unrefs : Nat
  invalidated : List Nat
  fatal : Bool
deriving DecidableEq

def noEffects : TeardownEffects :=
  { weak_unrefs := 0, toggle_unrefs := 0, plain_unrefs := 0,
    invalidated := [], fatal := false }

/-- `ObjectBase::invalidate_all_closures`: while the closure set is
nonempty, invalidate its first element; the invalidate notifier removes
every copy of that element from the set, and the loop body's own
`remove` is then a no-op. Returns the final closure set together with
the closures invalidated, in order. -/
def invalidate_all_closures : List Nat → List Nat × List Nat
  | [] => ([], [])
  | c :: rest =>
    let rest2 := rest.filter (fun x => x != c)
    let r := invalidate_all_closures rest2
    (r.1, c :: r.2)
termination_by cs => cs.length
decreasing_by
  simp only [List.length_cons]
  exact Nat.lt_succ_of_le (List.length_filter_le _ _)

/-- `ObjectInstance::release_native_object`: discard the wrapper
reference, release the native reference through the toggle-ref path or
the plain-unref path depending on `m_uses_toggle_ref`, and null out
`m_ptr`. -/
def release_native_object (s : ObjectInstanceS) (e : TeardownEffects) :
    ObjectInstanceS × TeardownEffects :=
  let s1 := { s with m_wrapper := none, wrapper_rooted := false }
  let e1 :=
    if s1.m_uses_toggle_ref then { e with toggle_unrefs := e.toggle_unrefs + 1 }
    else { e with plain_unrefs := e.plain_unrefs + 1 }
  ({ s1 with m_ptr := none }, e1)

/-- `ObjectInstance::disassociate_js_gobject`, parametrized by the pair
`(had_toggle_down, had_toggle_up)` that `ToggleQueue::cancel(m_ptr)`
returns. On an asymmetric cancellation it calls `g_error` (modelled by
`fatal := true`; the process aborts there, so no further actions are
recorded). Otherwise it removes the reverse lookup, invalidates all
closures, releases the native object and marks the wrapper finalized. -/
def disassociate_js_gobject (s : ObjectInstanceS)
    (had_toggle_down had_toggle_up : Bool) :
    ObjectInstanceS × TeardownEffects :=
  let e1 :=
    if !s.m_gobj_disposed then { noEffects with weak_unrefs := 1 } else noEffects
  if had_toggle_down != had_toggle_up then (s, { e1 with fatal := true })
  else
    let s1 := { s with qdata_set := false }
    let r := invalidate_all_closures s1.m_closures
    let s2 := { s1 with m_closures := r.1 }
    let p := release_native_object s2 { e1 with invalidated := r.2 }
    ({ p.1 with m_wrapper_finalized := true, m_wrapper := none }, p.2)

/-- Tail of `ObjectInstance::~ObjectInstance` after the native pointer
has been dealt with: unroot a still-rooted wrapper and unlink from the
registry. -/
def destructor_tail (s : ObjectInstanceS) : ObjectInstanceS :=
  let s2 :=
    if s.wrapper_rooted then { s with m_wrapper := none, wrapper_rooted := false }
    else s
  { s2 with linked := false }

/-- `ObjectInstance::~ObjectInstance` (wrapper finalization),
parametrized by the pair returned by `ToggleQueue::cancel(m_ptr)`. It
invalidates all closures; if the native pointer is still held it aborts
when the native refcount is not positive, aborts when a DOWN was
cancelled without a matching UP, and otherwise removes the dispose
weak-ref (unless dispose already ran) and releases the native object;
finally it unroots and unlinks. `g_error` aborts the process, so the
fatal branches return immediately. -/
def objectInstance_destructor (s : ObjectInstanceS)
    (had_toggle_down had_toggle_up : Bool) :
    ObjectInstanceS × TeardownEffects :=
  let r := invalidate_all_closures s.m_closures
  let s1 := { s with m_closures := r.1 }
  let e1 := { noEffects with invalidated := r.2 }
  match s1.m_ptr with
  | some _ =>
    if s1.gobj_ref_count ≤ 0 then (s1, { e1 with fatal := true })
    else if had_toggle_down && !had_toggle_up then (s1, { e1 with fatal := true })
    else
      let e2 :=
        if !s1.m_gobj_disposed then { e1 with weak_unrefs := e1.weak_unrefs + 1 }
        else e1
      let p := release_native_object s1 e2
      (destructor_tail p.1, p.2)
  | none => (destructor_tail s1, e1)

/-! ## Wrapper lookup and creation -/

/-- The per-instance state `ObjectInstance::for_gobject` and
`wrapper_from_gobject` read: the JS wrapper (if any), the toggle-ref
flag and the wrapper-finalized flag. -/
structure JSInstance where
  wrapper : Option Nat
  m_uses_toggle_ref : Bool
  m_wrapper_finalized : Bool
deriving DecidableEq

/-- Process state for wrapper lookup: the `gjs::private` qdata reverse
map from native objects to their instances, and a fresh-name supply for
JSObjects allocated by the JS engine. -/
structure WrapperWorld where
  qdata : Nat → Option JSInstance
  next_js_object : Nat

/-- `ObjectInstance::check_js_object_finalized`: a toggle-tracked
instance that resurfaces after its wrapper was finalized logs a critical
warning and clears the finalized flag so it can associate again. -/
def check_js_object_finalized (i : JSInstance) : JSInstance :=
  if i.m_uses_toggle_ref && i.m_wrapper_finalized then
    { i with m_wrapper_finalized := false }
  else i

/-- `ObjectInstance::for_gobject`: look up the instance recorded in the
native object's qdata; when present, run the finalized-resurface
check. -/
def for_gobject (w : WrapperWorld) (gobj : Nat) :
    Option JSInstance × WrapperWorld :=
  match w.qdata gobj with
  | none => (none, w)
  | some i =>
    let i2 := check_js_object_finalized i
    (some i2, { w with qdata := fun g => if g = gobj then some i2 else w.qdata g })

/-- `ObjectInstance::associate_js_gobject`: record the wrapper on the
instance, install the qdata reverse lookup, and start in non-toggle-ref
mode with the finalized flag clear. -/
def associate_js_gobject (w : WrapperWorld) (gobj obj : Nat) :
    JSInstance × WrapperWorld :=
  let i : JSInstance :=
    { wrapper := some obj, m_uses_toggle_ref := false, m_wrapper_finalized := false }
  (i, { w with qdata := fun g => if g = gobj then some i else w.qdata g })

/-- `ObjectInstance::new_for_gobject`: allocate a fresh JSObject from
the prototype and associate it with the native object. -/
def new_for_gobject (w : WrapperWorld) (gobj : Nat) :
    JSInstance × WrapperWorld :=
  let obj := w.next_js_object
  associate_js_gobject { w with next_js_object := w.next_js_object + 1 } gobj obj

/-- `ObjectInstance::wrapper_from_gobject`: return the existing
instance's wrapper when the qdata lookup succeeds, otherwise create a
new wrapper pair and return its wrapper. -/
def wrapper_from_gobject (w : WrapperWorld) (gobj : Nat) :
    Option Nat × WrapperWorld :=
  match for_gobject w gobj with
  | (some i, w2) => (i.wrapper, w2)
  | (none, w2) =>
    let p := new_for_gobject w2 gobj
    (p.1.wrapper, p.2)

/-! ## Reflected members: descriptors and instance accessors -/

/-- GI type tags distinguished by the field accessors: the container and
error tags rejected by `field_getter_impl`, and everything else. -/
inductive TypeTag where
  | array
  | interface
  | glist
  | gslist
  | ghash
  | error
  | other (t : Nat)
deriving DecidableEq

/-- The GIFieldInfo facts the bridge reads: name, the readable/writable
flags, and the field's type tag. -/
structure FieldInfo where
  name : String
  readable : Bool
  writable : Bool
  tag : TypeTag
deriving DecidableEq

/-- The GParamSpec facts the bridge reads: canonical name, whether the
custom-property quark (JS-overridden marker) is set on it, and the
readable/writable flags. -/
structure ParamSpec where
  pname : String
  custom : Bool
  readable : Bool
  writable : Bool
deriving DecidableEq

/-- Outcome of `ObjectInstance::prop_getter_impl`: `ok` is the JS
return value (false means an exception is pending), `read_native`
records whether `g_object_get_property` was called. -/
structure PropGetEffect where
  ok : Bool
  read_native : Bool
deriving DecidableEq

/-- `ObjectInstance::prop_getter_impl` on an instance: a disposed
instance is a silent no-op success; a JS-overridden (custom-property
quark) param is returned without touching the GObject; an unreadable
param yields undefined; otherwise the native property is read and
converted (conversion success given by `convert_ok`). The `none` case
for the param stands for the `g_assert(param)` that cannot fire after
resolution. -/
def prop_getter_impl (disposed : Bool) (param : Option ParamSpec)
    (convert_ok : Bool) : PropGetEffect :=
  if disposed then { ok := true, read_native := false }
  else
    match param with
    | none => { ok := false, read_native := false }
    | some p =>
      if p.custom then { ok := true, read_native := false }
      else if !p.readable then { ok := true, read_native := false }
      else if convert_ok then { ok := true, read_native := true }
      else { ok := false, read_native := true }

/-- Outcome of `ObjectInstance::prop_setter_impl`. -/
structure PropSetEffect where
  ok : Bool
  readonly_error : Bool
  wrote_native : Bool
deriving DecidableEq

/-- `ObjectInstance::prop_setter_impl` on an instance: disposed is a
silent no-op success; a missing param spec is an error
(`find_param_spec_from_id` threw); a JS-overridden param returns
success without writing; a non-writable param raises the read-only
field error; otherwise the value is converted (success per
`convert_ok`) and written through with `g_object_set_property`. -/
def prop_setter_impl (disposed : Bool) (param : Option ParamSpec)
    (convert_ok : Bool) : PropSetEffect :=
  if disposed then { ok := true, readonly_error := false, wrote_native := false }
  else
    match param with
    | none => { ok := false, readonly_error := false, wrote_native := false }
    | some p =>
      if p.custom then { ok := true, readonly_error := false, wrote_native := false }
      else if !p.writable then
        { ok := false, readonly_error := true, wrote_native := false }
      else if !convert_ok then
        { ok := false, readonly_error := false, wrote_native := false }
      else { ok := true, readonly_error := false, wrote_native := true }

/-- Outcome of `ObjectInstance::field_setter_not_impl`. -/
structure FieldSetEffect where
  ok : Bool
  readonly_error : Bool
  wrote_native : Bool
  logged_unimplemented : Bool
deriving DecidableEq

/-- `ObjectInstance::field_setter_not_impl`: disposed is a silent no-op
success; a writable field logs that setting it is not implemented and
returns success without writing; a non-writable field raises the
read-only field error. -/
def field_setter_not_impl (disposed : Bool) (field : FieldInfo) : FieldSetEffect :=
  if disposed then
    { ok := true, readonly_error := false, wrote_native := false,
      logged_unimplemented := false }
  else if field.writable then
    { ok := true, readonly_error := false, wrote_native := false,
      logged_unimplemented := true }
  else
    { ok := false, readonly_error := true, wrote_native := false,
      logged_unimplemented := false }

/-- The type tags `field_getter_impl` rejects: containers and errors. -/
def tag_is_disallowed_for_field (t : TypeTag) : Bool :=
  match t with
  | .array => true
  | .interface => true
  | .glist => true
  | .gslist => true
  | .ghash => true
  | .error => true
  | .other _ => false

/-- Outcome of `ObjectInstance::field_getter_impl`. -/
structure FieldGetEffect where
  ok : Bool
  unsupported_type_error : Bool
  read_native : Bool
deriving DecidableEq

/-- `ObjectInstance::field_getter_impl`: disposed is a silent no-op
success; a field whose type tag is a container or error type throws the
unsupported-type error before any native read; otherwise
`g_field_info_get_field` is attempted (success per `native_read_ok`)
and the result converted (success per `convert_ok`). -/
def field_getter_impl (disposed : Bool) (field : FieldInfo)
    (native_read_ok convert_ok : Bool) : FieldGetEffect :=
  if disposed then { ok := true, unsupported_type_error := false, read_native := false }
  else if tag_is_disallowed_for_field field.tag then
    { ok := false, unsupported_type_error := true, read_native := false }
  else if !native_read_ok then
    { ok := false, unsupported_type_error := false, read_native := true }
  else if convert_ok then
    { ok := true, unsupported_type_error := false, read_native := true }
  else { ok := false, unsupported_type_error := false, read_native := true }

/-! ## Reflection-driven resolver -/

/-- Modelled from the spec: `gjs_hyphen_from_camel` (declared in
gjs/jsapi-util.h; its definition is not among these sources) converts a
camel-case scripting name to hyphen-case, each upper-case letter
becoming a hyphen followed by its lower-case form. -/
def gjs_hyphen_from_camel (s : String) : String :=
  String.mk (s.data.foldr
    (fun c acc => if c.isUpper then '-' :: c.toLower :: acc else c :: acc) [])

/-- One character step of `canonicalize_key` (taken from GLib): any
character that is not a hyphen, an ASCII digit or an ASCII letter is
replaced by a hyphen. -/
def canonicalize_char (c : Char) : Char :=
  if c ≠ '-' ∧ ¬('0' ≤ c ∧ c ≤ '9') ∧ ¬('A' ≤ c ∧ c ≤ 'Z') ∧
      ¬('a' ≤ c ∧ c ≤ 'z') then '-'
  else c

/-- `canonicalize_key`: canonicalize every character in place. -/
def canonicalize_key (s : String) : String :=
  String.mk (s.data.map canonicalize_char)

/-- Introspection data of one directly implemented interface, as the
resolver reads it: methods with their GI_FUNCTION_IS_METHOD flag, and
property names (already canonical). -/
structure IfaceInfo where
  methods : List (String × Bool)
  props : List String
deriving DecidableEq

/-- Introspection data of one ancestor type: the virtual functions
`g_object_info_find_vfunc` can find on it. -/
structure AncestorInfo where
  vfuncs : List String
deriving DecidableEq

/-- The GIObjectInfo facts the resolver reads: the type's own vfuncs,
vfuncs reachable through `find_vfunc_using_interfaces`, own and
interface property names (canonical), own fields, methods (own and
interface-provided, with their IS_METHOD flag), and the ancestor chain
from the immediate parent upward. -/
structure ObjInfo where
  vfuncs : List String
  iface_vfuncs : List String
  props : List String
  iface_props : List String
  fields : List FieldInfo
  methods : List (String × Bool)
  ancestors : List AncestorInfo
deriving DecidableEq

/-- The parent-walking loop of `find_vfunc_on_parents`: search each
ancestor in turn with `g_object_info_find_vfunc`. -/
def find_vfunc_in_ancestors : List AncestorInfo → String → Bool
  | [], _ => false
  | a :: rest, name => a.vfuncs.contains name || find_vfunc_in_ancestors rest name

/-- `find_vfunc_on_parents`: first search the type itself (including its
interfaces); failing that walk the parent chain. Returns (found,
defined_by_parent); `defined_by_parent` is set as soon as the loop is
entered, exactly as in the C++ code. -/
def find_vfunc_on_parents (i : ObjInfo) (name : String) : Bool × Bool :=
  if i.vfuncs.contains name || i.iface_vfuncs.contains name then (true, false)
  else (find_vfunc_in_ancestors i.ancestors name, true)

/-- `ObjectPrototype::is_vfunc_unchanged`: resolve the vfunc address for
this type and for its immediate parent type (`addr` records what
`g_vfunc_info_get_address` answers; `none` is the GError case, treated
as changed) and compare for pointer equality. -/
def is_vfunc_unchanged (addr : String → Nat → Option Nat) (gtype ptype : Nat)
    (vname : String) : Bool :=
  match addr vname gtype with
  | none => false
  | some a1 =>
    match addr vname ptype with
    | none => false
    | some a2 => a1 == a2

/-- `is_gobject_property_name`: translate the scripting name to the
canonical native name and look it up among the type's own properties
and its directly implemented interfaces' properties. -/
def is_gobject_property_name (i : ObjInfo) (name : String) : Bool :=
  let canonical := canonicalize_key (gjs_hyphen_from_camel name)
  i.props.contains canonical || i.iface_props.contains canonical

/-- `lookup_field_info`: find the field by exact name in the type's own
field list; only readable fields are returned. -/
def lookup_field_info (fields : List FieldInfo) (name : String) : Option FieldInfo :=
  match fields.find? (fun f => f.name == name) with
  | none => none
  | some f => if f.readable then some f else none

/-- The `g_str_has_prefix(name, "vfunc_")` test of `resolve_impl`,
returning the remainder after the prefix (`&name[6]`) when it matches;
these names are ASCII, so characters and bytes coincide. -/
def split_vfunc (name : String) : Option String :=
  if "vfunc_".data.isPrefixOf name.data then some (String.mk (name.data.drop 6))
  else none

/-- What one resolution request materializes on the prototype. The
resolver either declines (`notResolved`, letting prototype-chain lookup
proceed) or defines exactly one accessor. Allocation failures (OOM) are
external and modelled as succeeding. -/
inductive Resolution where
  | notResolved
  | definedVfunc (name : String)
  | definedProperty (name : String)
  | definedField (name : String) (readonly : Bool)
  | definedMethod (name : String)
deriving DecidableEq

/-- `ObjectPrototype::lazy_define_gobject_property`: if the id already
has an own property the hook reports not-resolved; otherwise the lazy
getter/setter pair is defined. -/
def lazy_define_gobject_property (already : Bool) (name : String) : Resolution :=
  if already then .notResolved else .definedProperty name

/-- `ObjectPrototype::resolve_no_info`: walk the runtime GType's
interfaces; a found method with the IS_METHOD flag is defined; when
properties are considered, a matching interface property is lazily
defined; otherwise continue to the next interface. -/
def resolve_no_info (ifaces : List IfaceInfo) (consider_props : Bool)
    (already : Bool) (canonical name : String) : Resolution :=
  match ifaces with
  | [] => .notResolved
  | i :: rest =>
    match i.methods.find? (fun m => m.1 == name) with
    | some m =>
      if m.2 then .definedMethod name
      else if consider_props && i.props.contains canonical then
        lazy_define_gobject_property already name
      else resolve_no_info rest consider_props already canonical name
    | none =>
      if consider_props && i.props.contains canonical then
        lazy_define_gobject_property already name
      else resolve_no_info rest consider_props already canonical name

/-- The ObjectPrototype state the resolver reads and writes: whether the
type is a custom (no-introspection) JS subclass, its GType and the
GType's immediate parent, its GIObjectInfo, the runtime GType's
interfaces, and the field-descriptor cache. -/
structure ObjectPrototypeM where
  is_custom : Bool
  m_gtype : Nat
  parent_gtype : Nat
  m_info : ObjInfo
  rt_ifaces : List IfaceInfo
  field_cache : List (String × FieldInfo)
deriving DecidableEq

/-- The non-vfunc part of `ObjectPrototype::resolve_impl`: property
lookup first (lazily defined when found), then own readable fields
(cached in the field cache and defined read-only unless writable), then
methods with the IS_METHOD flag, then interface methods of the runtime
GType. `already` is what `JS_AlreadyHasOwnPropertyById` answers. -/
def resolve_nonvfunc (proto : ObjectPrototypeM) (already : Bool) (name : String) :
    Resolution × ObjectPrototypeM :=
  if is_gobject_property_name proto.m_info name then
    (lazy_define_gobject_property already name, proto)
  else
    match lookup_field_info proto.m_info.fields name with
    | some f =>
      if already then (.notResolved, proto)
      else (.definedField name (!f.writable),
            { proto with field_cache := (name, f) :: proto.field_cache })
    | none =>
      match proto.m_info.methods.find? (fun m => m.1 == name) with
      | some m => (if m.2 then .definedMethod name else .notResolved, proto)
      | none => (resolve_no_info proto.rt_ifaces false already "" name, proto)

/-- `ObjectPrototype::resolve_impl`: a custom JS class resolves only
through its interfaces; otherwise a `vfunc_`-prefixed name is looked up
through the parent chain, and a vfunc that an ancestor defines and
whose address equals the immediate parent's is explicitly left to
prototypal inheritance; every other case falls through to property,
field and method resolution. -/
def resolve_impl (proto : ObjectPrototypeM) (addr : String → Nat → Option Nat)
    (already : Bool) (name : String) : Resolution × ObjectPrototypeM :=
  if proto.is_custom then
    (resolve_no_info proto.rt_ifaces true already
       (canonicalize_key (gjs_hyphen_from_camel name)) name, proto)
  else
    match split_vfunc name with
    | some vname =>
      let fv := find_vfunc_on_parents proto.m_info vname
      if fv.1 then
        if fv.2 && is_vfunc_unchanged addr proto.m_gtype proto.parent_gtype vname then
          (.notResolved, proto)
        else (.definedVfunc vname, proto)
      else resolve_nonvfunc proto already name
    | none => resolve_nonvfunc proto already name

/-! ## Signal emission -/

/-- The GSignalQuery facts `emit_impl` reads: the declared parameter
count and whether the signal has a return value. -/
structure SignalQuery where
  n_params : Nat
  has_return_value : Bool
deriving DecidableEq

/-- Observable outcome of `ObjectInstance::emit_impl`: whether a JS
error was raised, whether `g_signal_emitv` ran, and how many argument
conversions were attempted. -/
structure EmitTrace where
  raised_error : Bool
  emitted : Bool
  conversions : Nat
deriving DecidableEq

/-- The argument-conversion loop of `emit_impl`: convert arguments in
order (`convert_ok i` records whether the marshaling collaborator
accepts argument `i`), stopping at the first failure. Returns (failed,
conversions attempted). -/
def convert_emit_args (convert_ok : Nat → Bool) (i : Nat) : Nat → Bool × Nat
  | 0 => (false, 0)
  | n + 1 =>
    if convert_ok i then
      let r := convert_emit_args convert_ok (i + 1) n
      (r.1, r.2 + 1)
    else (true, 1)

/-- `ObjectInstance::emit_impl`: a disposed instance is a silent no-op;
fewer than one argument fails argument parsing; an unknown signal name
(`signal = none`) throws; a supplied-argument count (excluding the
signal name) different from the declared parameter count throws before
any conversion or emission; otherwise the arguments are converted in
order, the signal is emitted only if all conversions succeded, and a
return value is converted back when the signal declares one. -/
def emit_impl (disposed : Bool) (argc : Nat) (signal : Option SignalQuery)
    (convert_ok : Nat → Bool) (ret_convert_ok : Bool) : EmitTrace :=
  if disposed then { raised_error := false, emitted := false, conversions := 0 }
  else if argc < 1 then { raised_error := true, emitted := false, conversions := 0 }
  else
    match signal with
    | none => { raised_error := true, emitted := false, conversions := 0 }
    | some q =>
      if argc - 1 != q.n_params then
        { raised_error := true, emitted := false, conversions := 0 }
      else
        let r := convert_emit_args convert_ok 0 q.n_params
        let failed := r.1
        let failed2 := if q.has_return_value then failed || !ret_convert_ok else failed
        { raised_error := failed2, emitted := !failed, conversions := r.2 }

/-! ## Helper lemmas -/

/-- The closure set is always empty after `invalidate_all_closures`. -/
@[simp] theorem invalidate_all_closures_fst (cs : List Nat) :
    (invalidate_all_closures cs).1 = [] := by
  generalize hn : cs.length = n
  induction n using Nat.strong_induction_on generalizing cs with
  | _ n ih =>
    match cs, hn with
    | [], _ => simp [invalidate_all_closures]
    | c :: rest, hn =>
      simp only [invalidate_all_closures]
      refine ih (rest.filter (fun x => x != c)).length ?_ _ rfl
      have h1 := List.length_filter_le (fun x => x != c) rest
      simp only [List.length_cons] at hn
      omega

/-- `check_js_object_finalized` is idempotent: the branch that fires
clears the very flag it tested. -/
theorem check_js_object_finalized_idem (i : JSInstance) :
    check_js_object_finalized (check_js_object_finalized i) =
      check_js_object_finalized i := by
  cases hu : i.m_uses_toggle_ref <;> cases hf : i.m_wrapper_finalized <;>
    simp [check_js_object_finalized, hu, hf]

/-! ## Claim theorems -/

/-- C9: `gjs_memory_report` logs the consistency warning exactly when
the sum of the category counters differs from the `everything` counter,
and terminates the process exactly when `die_if_leaks` is set and the
`everything` counter is positive; in every other case it returns
normally. -/
theorem c9_memory_report_characterization (c : GjsMemCounters)
    (die_if_leaks : Bool) :
    ((gjs_memory_report c die_if_leaks).warned_mismatch = true ↔
      (counters c).foldl (· + ·) 0 ≠ c.everything) ∧
    ((gjs_memory_report c die_if_leaks).died = true ↔
      (die_if_leaks = true ∧ 0 < c.everything)) := by
  unfold gjs_memory_report
  by_cases h : (0 : Int) < c.everything <;> simp [h, bne_iff_ne]

/-- C1 is false as stated: on the owning thread, a DOWN notification
(`is_last_ref`) for an object that already has a DOWN transition queued
is not enqueued — the code calls `g_error` (fatal double-queue), as
shown at the concrete input (not destroying, main thread, last-ref,
down already queued, up not queued). -/
theorem c1_counterexample :
    wrapped_gobj_toggle_notify false true true true false =
      ToggleAction.fatalDoubleQueue ∧
    ToggleAction.fatalDoubleQueue ≠ ToggleAction.enqueued Direction.down ∧
    ToggleAction.fatalDoubleQueue ≠ ToggleAction.enqueued Direction.up := by
  decide

/-- C1 (amended): on the owning thread, with the context not being
destroyed and a transition already queued for the object, the new
notification is enqueued only when it is an UP and a DOWN is queued (so
it is processed in order after the queued DOWN); in every other
already-queued combination (any DOWN notification, or an UP with only
an UP queued) the code terminates fatally with a double-queue
diagnostic rather than enqueuing. -/
theorem c1_amended_owner_thread_queued (is_last_ref down_q up_q : Bool)
    (h : down_q || up_q = true) :
    wrapped_gobj_toggle_notify false true is_last_ref down_q up_q =
      (if !is_last_ref && down_q then ToggleAction.enqueued Direction.up
       else ToggleAction.fatalDoubleQueue) := by
  cases is_last_ref <;> cases down_q <;> cases up_q <;>
    simp_all [wrapped_gobj_toggle_notify]

theorem c1_amended_owner_thread_queued_witness :
    wrapped_gobj_toggle_notify false true false true false =
      ToggleAction.enqueued Direction.up := by
  have h := c1_amended_owner_thread_queued false true false (by decide)
  simpa using h

/-- C8: emitting on a non-disposed instance with a known signal but a
supplied-argument count (excluding the signal name) different from the
declared parameter count raises a user-visible error before any
argument conversion, and no native emission occurs. -/
theorem c8_emit_arg_count_mismatch (argc : Nat) (q : SignalQuery)
    (convert_ok : Nat → Bool) (ret_convert_ok : Bool)
    (h1 : 1 ≤ argc) (h2 : argc - 1 ≠ q.n_params) :
    emit_impl false argc (some q) convert_ok ret_convert_ok =
      { raised_error := true, emitted := false, conversions := 0 } := by
  unfold emit_impl
  simp [Nat.not_lt.mpr h1, h2]

theorem c8_emit_arg_count_mismatch_witness :
    emit_impl false 2 (some { n_params := 2, has_return_value := false })
      (fun _ => true) true =
      { raised_error := true, emitted := false, conversions := 0 } :=
  c8_emit_arg_count_mismatch 2 { n_params := 2, has_return_value := false }
    (fun _ => true) true (by decide) (by decide)

/-- C10: for a property whose descriptor carries the custom-property
(JS-overridden) quark, both the instance getter and the instance setter
on a non-disposed instance return success without any native property
access: no `g_object_get_property` or `g_object_set_property` call is
made. -/
theorem c10_custom_property_no_native_access (p : ParamSpec)
    (convert_get convert_set : Bool) (h : p.custom = true) :
    prop_getter_impl false (some p) convert_get =
      { ok := true, read_native := false } ∧
    prop_setter_impl false (some p) convert_set =
      { ok := true, readonly_error := false, wrote_native := false } := by
  unfold prop_getter_impl prop_setter_impl
  simp [h]

theorem c10_custom_property_no_native_access_witness :
    prop_getter_impl false
        (some { pname := "label", custom := true, readable := true,
                writable := true }) true =
      { ok := true, read_native := false } ∧
    prop_setter_impl false
        (some { pname := "label", custom := true, readable := true,
                writable := true }) true =
      { ok := true, readonly_error := false, wrote_native := false } :=
  c10_custom_property_no_native_access
    { pname := "label", custom := true, readable := true, writable := true }
    true true rfl

/-- A concrete teardown state used for claim C2: a live native pointer
(refcount 1), dispose already notified, no closures. -/
def c2_state : ObjectInstanceS :=
  { m_ptr := some 1, gobj_ref_count := 1, m_wrapper := none,
    m_wrapper_finalized := false, m_gobj_disposed := true,
    m_uses_toggle_ref := true, m_closures := [], wrapper_rooted := false,
    qdata_set := true, linked := true }

/-- C2 is false as stated: on the wrapper-finalization path
(`~ObjectInstance`), canceling with `had_toggle_down = false` and
`had_toggle_up = true` — exactly one of the two true — does not
terminate the process; teardown proceeds normally (`fatal = false`). -/
theorem c2_counterexample :
    (objectInstance_destructor c2_state false true).2.fatal = false ∧
    (false : Bool) ≠ (true : Bool) := by
  constructor
  · simp [objectInstance_destructor, c2_state, invalidate_all_closures,
      release_native_object, destructor_tail, noEffects]
  · decide

/-- C2 (amended): on the disassociation path a cancellation returning
exactly one of (had_down, had_up) true is fatal and both-or-neither
proceeds; but on the wrapper-finalization path only
`had_down ∧ ¬had_up` (a pending unroot) is fatal — a cancelled UP with
no DOWN is tolerated and teardown proceeds normally. -/
theorem c2_amended_cancel_asymmetry (s : ObjectInstanceS) (hd hu : Bool)
    (h1 : s.m_ptr.isSome = true) (h2 : 0 < s.gobj_ref_count) :
    ((disassociate_js_gobject s hd hu).2.fatal = (hd != hu)) ∧
    ((objectInstance_destructor s hd hu).2.fatal = (hd && !hu)) := by
  obtain ⟨ptr, hptr⟩ := Option.isSome_iff_exists.mp h1
  have hle : ¬s.gobj_ref_count ≤ 0 := not_le.mpr h2
  constructor
  · by_cases hgd : s.m_gobj_disposed <;> by_cases hutr : s.m_uses_toggle_ref <;>
      cases hd <;> cases hu <;>
        simp [disassociate_js_gobject, release_native_object, noEffects, hgd, hutr]
  · by_cases hgd : s.m_gobj_disposed <;> by_cases hutr : s.m_uses_toggle_ref <;>
      cases hd <;> cases hu <;>
        simp [objectInstance_destructor, hptr, hle, release_native_object,
          destructor_tail, noEffects, hgd, hutr]

theorem c2_amended_cancel_asymmetry_witness :
    (disassociate_js_gobject c2_state true false).2.fatal = (true != false) ∧
    (objectInstance_destructor c2_state true false).2.fatal = (true && !false) :=
  c2_amended_cancel_asymmetry c2_state true false rfl (by decide)

/-- C3: disassociation is idempotent. A first disassociation (with a
symmetric cancel result) releases exactly one native reference; running
the finalization teardown afterwards on the resulting instance releases
no further native reference (the nulled `m_ptr` guards it), removes no
further weak-ref, invalidates no closure a second time, and is not
fatal: its effects are exactly `noEffects`. -/
theorem c3_disassociation_idempotent (s : ObjectInstanceS) (hd hd2 hu2 : Bool) :
    ((disassociate_js_gobject s hd hd).2.toggle_unrefs +
        (disassociate_js_gobject s hd hd).2.plain_unrefs = 1) ∧
    (objectInstance_destructor (disassociate_js_gobject s hd hd).1 hd2 hu2).2 =
      noEffects := by
  have hxor : (hd != hd) = false := by cases hd <;> rfl
  by_cases hgd : s.m_gobj_disposed <;> by_cases hutr : s.m_uses_toggle_ref <;>
    simp [disassociate_js_gobject, objectInstance_destructor,
      release_native_object, destructor_tail, noEffects, hxor, hgd, hutr,
      invalidate_all_closures]

/-- C4: calling get-or-create-wrapper twice in a row with no
intervening disposal returns the same wrapper both times, and the
second call allocates no new JSObject: it finds the instance the first
call recorded in the native object's qdata. -/
theorem c4_get_or_create_wrapper_idempotent (w : WrapperWorld) (gobj : Nat) :
    ((wrapper_from_gobject (wrapper_from_gobject w gobj).2 gobj).1 =
      (wrapper_from_gobject w gobj).1) ∧
    ((wrapper_from_gobject (wrapper_from_gobject w gobj).2 gobj).2.next_js_object =
      (wrapper_from_gobject w gobj).2.next_js_object) := by
  cases h : w.qdata gobj with
  | none =>
      simp [wrapper_from_gobject, for_gobject, new_for_gobject,
        associate_js_gobject, check_js_object_finalized, h]
  | some i =>
      simp [wrapper_from_gobject, for_gobject, h, check_js_object_finalized_idem]

/-- C5: when a `vfunc_<name>` lookup finds a virtual function defined
by an ancestor (`defined_by_parent`), and the addresses resolved for
this type and for its immediate parent type are both available, the
resolver declines to resolve (defining nothing, so prototype-chain
lookup finds the ancestor's accessor) exactly when the two addresses
are equal, and materializes the vfunc exactly when they differ. -/
theorem c5_vfunc_unchanged_suppression (proto : ObjectPrototypeM)
    (addr : String → Nat → Option Nat) (already : Bool) (name vname : String)
    (a1 a2 : Nat) (hcustom : proto.is_custom = false)
    (hsplit : split_vfunc name = some vname)
    (hfind : find_vfunc_on_parents proto.m_info vname = (true, true))
    (ha1 : addr vname proto.m_gtype = some a1)
    (ha2 : addr vname proto.parent_gtype = some a2) :
    resolve_impl proto addr already name =
      (if a1 = a2 then (Resolution.notResolved, proto)
       else (Resolution.definedVfunc vname, proto)) := by
  unfold resolve_impl
  simp [hcustom, hsplit, hfind, is_vfunc_unchanged, ha1, ha2]

/-- A prototype whose introspection data defines vfunc `foo` only on an
ancestor, used to instantiate claim C5. -/
def c5_proto : ObjectPrototypeM :=
  { is_custom := false, m_gtype := 7, parent_gtype := 3,
    m_info := { vfuncs := [], iface_vfuncs := [], props := [],
                iface_props := [], fields := [], methods := [],
                ancestors := [{ vfuncs := ["foo"] }] },
    rt_ifaces := [], field_cache := [] }

theorem c5_vfunc_unchanged_suppression_witness :
    resolve_impl c5_proto (fun _ _ => some 5) false "vfunc_foo" =
      (Resolution.notResolved, c5_proto) := by
  have h := c5_vfunc_unchanged_suppression c5_proto (fun _ _ => some 5) false
    "vfunc_foo" "foo" 5 5 rfl (by decide) (by decide) rfl rfl
  simpa using h

/-- A writable, readable field with a simple type, used for claim C6. -/
def c6_field : FieldInfo :=
  { name := "flags", readable := true, writable := true, tag := TypeTag.other 0 }

/-- C6 is false as stated: setting a writable reflected field on a
non-disposed instance does not convert and write the value through to
the native object — `field_setter_not_impl` logs that setting a GObject
field is not implemented and returns success without writing (and
without raising an error). -/
theorem c6_counterexample :
    field_setter_not_impl false c6_field =
      { ok := true, readonly_error := false, wrote_native := false,
        logged_unimplemented := true } ∧
    c6_field.writable = true := by
  decide

/-- C6 (amended): for a resolved reflected property without the
JS-override marker on a non-disposed instance, a non-writable member
raises the read-only-field error and a writable member converts the
value (failure aborting with the conversion error) and writes it
through; for a resolved reflected field, a non-writable member raises
the read-only-field error, but a writable member logs that setting is
unimplemented and returns success without writing. -/
theorem c6_amended_setter_behavior (p : ParamSpec) (f : FieldInfo)
    (convert_ok : Bool) (hp : p.custom = false) :
    (prop_setter_impl false (some p) convert_ok =
      (if !p.writable then
        { ok := false, readonly_error := true, wrote_native := false }
       else if !convert_ok then
        { ok := false, readonly_error := false, wrote_native := false }
       else { ok := true, readonly_error := false, wrote_native := true })) ∧
    (field_setter_not_impl false f =
      (if f.writable then
        { ok := true, readonly_error := false, wrote_native := false,
          logged_unimplemented := true }
       else
        { ok := false, readonly_error := true, wrote_native := false,
          logged_unimplemented := false })) := by
  cases hw : p.writable <;> cases hc : convert_ok <;> cases hfw : f.writable <;>
    simp [prop_setter_impl, field_setter_not_impl, hp, hw, hc, hfw]

theorem c6_amended_setter_behavior_witness :
    prop_setter_impl false
        (some { pname := "style", custom := false, readable := true,
                writable := false }) true =
      { ok := false, readonly_error := true, wrote_native := false } ∧
    field_setter_not_impl false
        { name := "parent_instance", readable := true, writable := false,
          tag := TypeTag.other 1 } =
      { ok := false, readonly_error := true, wrote_native := false,
        logged_unimplemented := false } := by
  have h := c6_amended_setter_behavior
    { pname := "style", custom := false, readable := true, writable := false }
    { name := "parent_instance", readable := true, writable := false,
      tag := TypeTag.other 1 }
    true rfl
  simpa using h

/-- A readable field with a container (GList) type, used for claim C7. -/
def c7_field : FieldInfo :=
  { name := "priv", readable := true, writable := false, tag := TypeTag.glist }

/-- A prototype whose introspection data has only the container-typed
field `priv`, used for claim C7. -/
def c7_proto : ObjectPrototypeM :=
  { is_custom := false, m_gtype := 4, parent_gtype := 2,
    m_info := { vfuncs := [], iface_vfuncs := [], props := [],
                iface_props := [], fields := [c7_field], methods := [],
                ancestors := [] },
    rt_ifaces := [], field_cache := [] }

/-- C7 is false as stated: resolving a member name matching a readable
field of container type does not fail at resolution time — the
resolver defines the accessor (reporting resolved, with no error), and
the unsupported-type error is raised only when the field getter first
runs. -/
theorem c7_counterexample :
    (resolve_impl c7_proto (fun _ _ => none) false "priv").1 =
      Resolution.definedField "priv" true ∧
    field_getter_impl false c7_field true true =
      { ok := false, unsupported_type_error := true, read_native := false } := by
  decide

/-- C7 (amended): resolving a member name that matches a readable field
whose type is a container or error type succeeds, defining the lazy
field accessor on the prototype; the hard unsupported-type error is
raised (before any native read) when the field is first accessed
through the getter, not at resolution time. -/
theorem c7_amended_field_error_deferred (proto : ObjectPrototypeM)
    (addr : String → Nat → Option Nat) (f : FieldInfo) (name : String)
    (native_read_ok convert_ok : Bool)
    (hcustom : proto.is_custom = false)
    (hv : split_vfunc name = none)
    (hprop : is_gobject_property_name proto.m_info name = false)
    (hfield : lookup_field_info proto.m_info.fields name = some f)
    (htag : tag_is_disallowed_for_field f.tag = true) :
    (resolve_impl proto addr false name).1 =
      Resolution.definedField name (!f.writable) ∧
    field_getter_impl false f native_read_ok convert_ok =
      { ok := false, unsupported_type_error := true, read_native := false } := by
  constructor
  · unfold resolve_impl resolve_nonvfunc
    simp [hcustom, hv, hprop, hfield]
  · unfold field_getter_impl
    simp [htag]

theorem c7_amended_field_error_deferred_witness :
    (resolve_impl c7_proto (fun _ _ => none) false "priv").1 =
      Resolution.definedField "priv" (!c7_field.writable) ∧
    field_getter_impl false c7_field false false =
      { ok := false, unsupported_type_error := true, read_native := false } :=
  c7_amended_field_error_deferred c7_proto (fun _ _ => none) c7_field "priv"
    false false rfl (by decide) (by decide) (by decide) rfl
